import Mathlib

/-!
# Verification of the formula-extraction core of Bridge_Slab_Design2

Shallow embedding of `src/utils/formula_extractor.py` and the formula-export
part of `src/modules/excel_processor.py`, with theorems settling the frozen
claims of the specification.

Modelling conventions:
* Python strings are `String` / `List Char`; the hand-written pattern matchers
  below reproduce the source's `re.findall` / `re.sub` behaviour (leftmost,
  non-overlapping, greedy, advance one character on failure) for the concrete
  patterns used by the source.
* Python numbers are the exact rationals `Q` defined below; every value
  exercised by the claims is exact.
* Python dicts are association lists in insertion order (Python 3.7+ dicts
  preserve insertion order); `list(set(...))` is modelled by `List.eraseDups`
  (Python's set order is unspecified, only membership and cardinality of these
  lists are relied upon downstream).
* Recursions that walk a list use a fuel argument instantiated with the input
  length (plus one); each step consumes at least one list element per unit of
  fuel, so the fuel never runs out on the given inputs.
-/

namespace BridgeSlab

/-- Character class `[A-Z]` of the source's regular expressions. -/
def isUpperAZ (c : Char) : Bool := 'A' ≤ c && c ≤ 'Z'

/-- Character class `\d` (i.e. `[0-9]`) restricted to ASCII, as in the
source's patterns. -/
def isDigit09 (c : Char) : Bool := '0' ≤ c && c ≤ '9'

/-- Word characters for Python's `\b` boundary: `[A-Za-z0-9_]`. -/
def isWordChar (c : Char) : Bool :=
  isUpperAZ c || ('a' ≤ c && c ≤ 'z') || isDigit09 c || c == '_'

/-- Python's `\s` whitespace class (ASCII part, which is all the source meets). -/
def isSpacePy (c : Char) : Bool :=
  c == ' ' || c == '\t' || c == '\n' || c == '\r' || c == '\x0b' || c == '\x0c'

/-- Is the optional previous character a word character (`false` at the start
of the string)?  Used for `\b` boundaries. -/
def prevIsWord : Option Char → Bool
  | none => false
  | some c => isWordChar c

/-! ## Exact numbers

Python numbers are modelled by rationals kept in lowest terms with a
positive denominator, so that structural equality is value equality.  (Every
number the claims meet is exact; float rounding plays no role in any claim.) -/

/-- A rational number; all constructions go through `mkQ`, which normalizes,
so equal values are structurally equal. -/
structure Q where
  num : Int
  den : Nat
deriving DecidableEq, Repr

/-- Normalizing constructor.  Division by zero cannot occur at the call
sites (they guard it); the zero-denominator branch is a placeholder. -/
def mkQ (n d : Int) : Q :=
  if d = 0 then ⟨0, 1⟩
  else
    let s : Int := if d < 0 then -1 else 1
    let n2 := s * n
    let dn := (s * d).toNat
    let g := Nat.gcd n2.natAbs dn
    ⟨n2 / (g : Int), dn / g⟩

instance (n : Nat) : OfNat Q n := ⟨⟨n, 1⟩⟩

def qOfNat (n : Nat) : Q := ⟨n, 1⟩

def qAdd (a b : Q) : Q := mkQ (a.num * b.den + b.num * a.den) (a.den * b.den)

def qSub (a b : Q) : Q := mkQ (a.num * b.den - b.num * a.den) (a.den * b.den)

def qMul (a b : Q) : Q := mkQ (a.num * b.num) (a.den * b.den)

/-- Division; callers guard the zero divisor. -/
def qDiv (a b : Q) : Q := mkQ (a.num * b.den) (a.den * b.num)

def qNeg (a : Q) : Q := ⟨-a.num, a.den⟩

def qAbs (a : Q) : Q := ⟨a.num.natAbs, a.den⟩

def qLt (a b : Q) : Bool := a.num * b.den < b.num * a.den

def qLe (a b : Q) : Bool := a.num * b.den ≤ b.num * a.den

/-- Floor, as Python's `math.floor` / `//`. -/
def qFloor (a : Q) : Int := a.num.fdiv a.den

/-- Integer power (a normalized base stays normalized; the negative case
renormalizes the sign through `mkQ`). -/
def qPow (a : Q) (k : Int) : Q :=
  match k with
  | .ofNat m => ⟨a.num ^ m, a.den ^ m⟩
  | .negSucc _ =>
    let m := (-k).toNat
    mkQ ((a.den : Int) ^ m) (a.num ^ m)

/-- Decimal digits of a natural number (fuel exceeds the digit count). -/
def natReprGo : Nat → Nat → List Char → List Char
  | 0, _, acc => acc
  | fuel + 1, n, acc =>
    let d := Char.ofNat ('0'.toNat + n % 10)
    if n < 10 then d :: acc
    else natReprGo fuel (n / 10) (d :: acc)

/-- Python's `str()` on an int. -/
def intRepr : Int → String
  | .ofNat n => String.mk (natReprGo (n + 1) n [])
  | .negSucc n => String.mk ('-' :: natReprGo (n + 2) (n + 1) [])

/-! ## `_analyze_formula` token scanners (formula_extractor.py lines 149-172) -/

/-- Match `[A-Z]+\d+` (both greedy) at the head of `l`; returns the matched
span and the rest.  Regex backtracking cannot rescue a failure here: if the
maximal letter run is not followed by a digit, no shorter split succeeds. -/
def matchCellCore (l : List Char) : Option (List Char × List Char) :=
  let letters := l.takeWhile isUpperAZ
  let rest1 := l.dropWhile isUpperAZ
  let digits := rest1.takeWhile isDigit09
  let rest2 := rest1.dropWhile isDigit09
  if letters.isEmpty || digits.isEmpty then none
  else some (letters ++ digits, rest2)

/-- Match the source's cell pattern `([A-Z]+\d+(?::[A-Z]+\d+)?)` at the head
of `l` (formula_extractor.py line 150). -/
def matchCellToken (l : List Char) : Option (List Char × List Char) :=
  match matchCellCore l with
  | none => none
  | some (m, rest) =>
    match rest with
    | ':' :: rest2 =>
      match matchCellCore rest2 with
      | some (m2, rest3) => some (m ++ ':' :: m2, rest3)
      | none => some (m, rest)
    | _ => some (m, rest)

/-- `re.findall` of the cell pattern: leftmost non-overlapping matches,
advancing one character when no match starts at the current position. -/
def findCellTokensGo : Nat → List Char → List (List Char)
  | 0, _ => []
  | _, [] => []
  | fuel + 1, c :: cs =>
    match matchCellToken (c :: cs) with
    | some (m, rest) => m :: findCellTokensGo fuel rest
    | none => findCellTokensGo fuel cs

/-- All matches of the source's cell/range pattern in a formula body. -/
def findCellTokens (l : List Char) : List String :=
  (findCellTokensGo l.length l).map (fun m => String.mk m)

/-- Match the source's function pattern `([A-Z]+)\s*\(` at the head of `l`
(formula_extractor.py line 160), returning the captured name and the rest
after the opening parenthesis.  Maximal-munch is equivalent to the regex:
if the character after the letters and spaces is not `(`, every shorter
split fails for the same reason. -/
def matchFunctionToken (l : List Char) : Option (List Char × List Char) :=
  let letters := l.takeWhile isUpperAZ
  let rest1 := l.dropWhile isUpperAZ
  let rest2 := rest1.dropWhile isSpacePy
  if letters.isEmpty then none
  else
    match rest2 with
    | '(' :: rest3 => some (letters, rest3)
    | _ => none

/-- `re.findall` of the function pattern. -/
def findFunctionTokensGo : Nat → List Char → List (List Char)
  | 0, _ => []
  | _, [] => []
  | fuel + 1, c :: cs =>
    match matchFunctionToken (c :: cs) with
    | some (m, rest) => m :: findFunctionTokensGo fuel rest
    | none => findFunctionTokensGo fuel cs

/-- All function-name captures in a formula body. -/
def findFunctionTokens (l : List Char) : List String :=
  (findFunctionTokensGo l.length l).map (fun m => String.mk m)

/-- The source's operator pattern `([\+\-\*\/\^\<\>\=])` is a single-character
class, so `re.findall` is exactly a filter. -/
def findOperatorChars (l : List Char) : List Char :=
  l.filter (fun c =>
    c == '+' || c == '-' || c == '*' || c == '/' || c == '^' ||
    c == '<' || c == '>' || c == '=')

/-- Numeric value of a digit string. -/
def digitsToNat (l : List Char) : Nat :=
  l.foldl (fun n c => 10 * n + (c.toNat - '0'.toNat)) 0

/-- `float(c)` for a capture `\d+\.?\d*` of the constant pattern. -/
def floatOfDigits (intPart fracPart : List Char) : Q :=
  mkQ (digitsToNat intPart * 10 ^ fracPart.length + digitsToNat fracPart)
    ((10 ^ fracPart.length : Nat) : Int)

/-- Match the source's constant pattern `\b(\d+\.?\d*)\b` at the head of `l`,
`prev` being the character just before the head.  The candidates are tried in
the regex's backtracking order: full `\d+ . \d*`, then `\d+ .` (the trailing
`\d*` given back entirely — any partial give-back leaves a digit boundary
violation), then bare `\d+`. -/
def matchConstantToken (prev : Option Char) (l : List Char) :
    Option (List Char × List Char) :=
  match l with
  | [] => none
  | d :: _ =>
    if isDigit09 d && !prevIsWord prev then
      let d1 := l.takeWhile isDigit09
      let rest1 := l.dropWhile isDigit09
      match rest1 with
      | '.' :: rest2 =>
        let d2 := rest2.takeWhile isDigit09
        let rest3 := rest2.dropWhile isDigit09
        if d2.isEmpty then
          -- candidate `d1.`: its last char '.' is non-word, so the trailing
          -- boundary holds iff the next char is a word char
          match rest2 with
          | c2 :: _ =>
            if isWordChar c2 then some (d1 ++ ['.'], rest2)
            else some (d1, '.' :: rest2)  -- give back the dot: digit/non-word boundary
          | [] => some (d1, '.' :: rest2)
        else
          -- candidate `d1.d2` ends in a digit: boundary iff next is non-word
          match rest3 with
          | [] => some (d1 ++ '.' :: d2, rest3)
          | c3 :: _ =>
            if !isWordChar c3 then some (d1 ++ '.' :: d2, rest3)
            else some (d1 ++ ['.'], rest2)  -- give back all of d2: '.'/digit boundary
      | _ =>
        match rest1 with
        | [] => some (d1, rest1)
        | c1 :: _ => if !isWordChar c1 then some (d1, rest1) else none
    else none

/-- `re.findall` of the constant pattern, threading the previous character for
the leading `\b`.  Advancing one character on failure is equivalent to the
regex scan: every position strictly inside a digit run fails its leading
boundary. -/
def findConstantsGo : Nat → Option Char → List Char → List (List Char)
  | 0, _, _ => []
  | _, _, [] => []
  | fuel + 1, prev, c :: cs =>
    match matchConstantToken prev (c :: cs) with
    | some (m, rest) => m :: findConstantsGo fuel (some (m.getLastD '0')) rest
    | none => findConstantsGo fuel (some c) cs

/-- Split a constant capture at its dot and convert with `float`. -/
def constantValue (m : List Char) : Q :=
  floatOfDigits (m.takeWhile (· ≠ '.')) ((m.dropWhile (· ≠ '.')).drop 1)

/-- All numeric constants of a formula body, as `float` values. -/
def findConstants (l : List Char) : List Q :=
  (findConstantsGo l.length none l).map constantValue

/-! ## `_analyze_formula` (formula_extractor.py lines 128-191) -/

/-- The source's `formula_type` strings. -/
inductive FormulaType where
  | simple
  | function
  | complex_reference
  | complex_arithmetic
deriving DecidableEq, Repr

/-- The metadata dict built by `_analyze_formula`. -/
structure FormulaMetadata where
  original_formula : String
  cell_address : String
  referenced_cells : List String
  referenced_ranges : List String
  excel_functions : List String
  operators : List Char
  constants : List Q
  formula_type : FormulaType
  complexity_score : Nat
deriving DecidableEq, Repr

/-- `FormulaExtractor._analyze_formula`.  A formula that is empty or does not
start with `=` returns the default metadata unchanged. -/
def analyzeFormula (formula : String) (cell_address : String) : FormulaMetadata :=
  let base : FormulaMetadata :=
    { original_formula := formula
      cell_address := cell_address
      referenced_cells := []
      referenced_ranges := []
      excel_functions := []
      operators := []
      constants := []
      formula_type := .simple
      complexity_score := 0 }
  match formula.data with
  | '=' :: body =>
    let tokens := findCellTokens body
    let cells := tokens.filter (fun t => !t.data.contains ':')
    let ranges := tokens.filter (fun t => t.data.contains ':')
    let fns := (findFunctionTokens body).eraseDups
    let ops := (findOperatorChars body).eraseDups
    let consts := findConstants body
    let ftype : FormulaType :=
      if fns.length > 0 then .function
      else if cells.length > 5 || ranges.length > 0 then .complex_reference
      else if ops.length > 3 then .complex_arithmetic
      else .simple
    let score := cells.length + ranges.length * 2 + fns.length * 3 + ops.length
    { base with
      referenced_cells := cells
      referenced_ranges := ranges
      excel_functions := fns
      operators := ops
      constants := consts
      formula_type := ftype
      complexity_score := score }
  | _ => base

/-! ## `_detect_circular_references` (formula_extractor.py lines 453-499)

A processed document is modelled by what this function reads from it: the
ordered list of sheets, each with its ordered `cell address → formula text`
association (`sheet_data['formulas']`). -/

/-- One sheet: name and its formula cells in insertion order. -/
abbrev SheetFormulas := String × List (String × String)

/-- The dependency graph dict: for every formula cell, key `sheet!cell` maps
to the qualified referenced cells.  Note the source qualifies every
referenced cell with the *current* sheet name (line 468). -/
def buildDependencies (sheets : List SheetFormulas) : List (String × List String) :=
  sheets.flatMap (fun sf =>
    sf.2.map (fun cf =>
      (sf.1 ++ "!" ++ cf.1,
       (analyzeFormula cf.2 cf.1).referenced_cells.map (fun r => sf.1 ++ "!" ++ r))))

mutual

/-- The source's recursive `has_cycle(node, visited, rec_stack, path)`.
Returns (result, visited, circular_refs): `visited` is shared mutable state
threaded through; `rec_stack` and `path` are restored by the source whenever a
call returns `False` and are dead after a `True` return, so passing them by
value is faithful.  The fuel is instantiated so that it cannot run out: every
call pushes a previously unvisited node into `visited` (see `depsFuel`). -/
def hasCycle (deps : List (String × List String)) :
    Nat → String → List String → List String → List String →
    List (List String) → Bool × List String × List (List String)
  | 0, _, visited, _, _, acc => (false, visited, acc)
  | fuel + 1, node, visited, recStack, path, acc =>
    hasCycleNeighbors deps fuel ((deps.lookup node).getD [])
      (node :: visited) (node :: recStack) (path ++ [node]) acc

/-- The `for neighbor in dependencies.get(node, [])` loop of `has_cycle`:
returns `True` as soon as a recursive call finds a cycle (leaving the
remaining neighbours unexplored, as the source does), records a cycle when a
neighbour is on the recursion stack, and otherwise moves on. -/
def hasCycleNeighbors (deps : List (String × List String)) :
    Nat → List String → List String → List String → List String →
    List (List String) → Bool × List String × List (List String)
  | 0, _, visited, _, _, acc => (false, visited, acc)
  | _ + 1, [], visited, _, _, acc => (false, visited, acc)
  | fuel + 1, n :: ns, visited, recStack, path, acc =>
    if visited.contains n then
      if recStack.contains n then
        -- cycle = path[path.index(n):] + [n]
        (true, visited, acc ++ [path.dropWhile (· ≠ n) ++ [n]])
      else hasCycleNeighbors deps fuel ns visited recStack path acc
    else
      match hasCycle deps fuel n visited recStack path acc with
      | (true, v, a) => (true, v, a)
      | (false, v, a) => hasCycleNeighbors deps fuel ns v recStack path a

end

/-- Fuel bound for the DFS.  Fuel is consumed once per `hasCycle` call and
once per neighbour step.  Along any chain of nested calls each `hasCycle`
step pushes a previously unvisited node into `visited` (at most one per
distinct node, and every node is a graph key or a neighbour occurrence) and
each neighbour step consumes one neighbour of a node on the chain, so the
chain length is well below this bound and the fuel never runs out. -/
def depsFuel (deps : List (String × List String)) : Nat :=
  3 * (deps.length + (deps.map (fun p => p.2.length)).sum + 1)

/-- `FormulaExtractor._detect_circular_references`: build the dependency
dict, then run the DFS from every not-yet-visited key in insertion order,
collecting the reported cycles.  (The source wraps each cycle in a dict with
a derived description string; only the cycle list is modelled.) -/
def detectCircularReferences (sheets : List SheetFormulas) : List (List String) :=
  let deps := buildDependencies sheets
  (deps.foldl
    (fun (st : List String × List (List String)) p =>
      if st.1.contains p.1 then st
      else
        let r := hasCycle deps (depsFuel deps) p.1 st.1 [] [] st.2
        (r.2.1, r.2.2))
    ([], [])).2

/-! ## `evaluate_formula` and its helpers (formula_extractor.py lines 216-310)

`_safe_eval` calls Python's `eval` on a namespace restricted to a few
callables; the model is an interpreter for the expression fragment that can
actually flow out of `_substitute_cell_references` and
`_replace_excel_functions`.  Numbers are the exact rationals `Q`; list
values and transcendental results are modelled as errors and are unreachable
on every claim (see the comments at their sites). -/

/-- Values produced by the restricted evaluation. -/
inductive PyVal where
  | num (q : Q)
  | str (s : String)
  | bool (b : Bool)
deriving DecidableEq, Repr

/-- Python's rendering of a context value during substitution
(`_substitute_cell_references` lines 244-250): strings are wrapped in double
quotes, other values go through `str()`.  Integral rationals print like
Python ints; the non-integral branch is a placeholder never reached by the
claims (their contexts hold integers only). -/
def pyReprVal : PyVal → String
  | .num q => if q.den = 1 then intRepr q.num else intRepr q.num ++ "/" ++ intRepr q.den
  | .str s => "\"" ++ s ++ "\""
  | .bool b => if b then "True" else "False"

/-- The `replace_cell` callback of `_substitute_cell_references`: the
rendered context value, or the `"0"` zero fallback for a reference absent
from the context.  Nothing is recorded about which case was taken. -/
def lookupRepr (ctx : List (String × PyVal)) (token : String) : String :=
  match ctx.lookup token with
  | some v => pyReprVal v
  | none => "0"

/-- `re.sub(r'\b[A-Z]+\d+\b', replace_cell, formula)`: scan the original
text left to right, boundaries judged on the original characters,
replacements not rescanned; a reference found in the context is replaced by
its rendered value, a missing reference by `"0"` (the zero fallback,
line 251). -/
def substCellRefsGo (ctx : List (String × PyVal)) :
    Nat → Option Char → List Char → List Char
  | 0, _, l => l
  | _, _, [] => []
  | fuel + 1, prev, c :: cs =>
    if isUpperAZ c && !prevIsWord prev then
      let letters := (c :: cs).takeWhile isUpperAZ
      let rest1 := (c :: cs).dropWhile isUpperAZ
      let digits := rest1.takeWhile isDigit09
      let rest2 := rest1.dropWhile isDigit09
      let okAfter := match rest2 with
        | [] => true
        | c2 :: _ => !isWordChar c2
      if digits.isEmpty || !okAfter then
        c :: substCellRefsGo ctx fuel (some c) cs
      else
        (lookupRepr ctx (String.mk (letters ++ digits))).data ++
          substCellRefsGo ctx fuel (some ((letters ++ digits).getLastD '0')) rest2
    else
      c :: substCellRefsGo ctx fuel (some c) cs

/-- `FormulaExtractor._substitute_cell_references`. -/
def substituteCellReferences (body : String) (ctx : List (String × PyVal)) : String :=
  String.mk (substCellRefsGo ctx (body.data.length + 1) none body.data)

/-- Python's `str.replace`: all occurrences, left to right, the replacement
text is not rescanned. -/
def strReplaceGo (pat rep : List Char) : Nat → List Char → List Char
  | 0, l => l
  | _, [] => []
  | fuel + 1, c :: cs =>
    if pat.isPrefixOf (c :: cs) then
      rep ++ strReplaceGo pat rep fuel ((c :: cs).drop pat.length)
    else c :: strReplaceGo pat rep fuel cs

def strReplace (s pat rep : String) : String :=
  String.mk (strReplaceGo pat.data rep.data (s.data.length + 1) s.data)

/-- The ordered replacement table of `_replace_excel_functions`
(formula_extractor.py lines 262-276).  The boolean marks entries whose Python
replacement ends in `[`; for those the source additionally runs
`formula = formula.replace(')', '])')` — unconditionally, even when the
aggregate pattern never occurred in the formula. -/
def excelReplacements : List (String × String × Bool) :=
  [("SUM(", "sum([", true),
   ("AVERAGE(", "np.mean([", true),
   ("MAX(", "max([", true),
   ("MIN(", "min([", true),
   ("SQRT(", "np.sqrt(", false),
   ("ABS(", "abs(", false),
   ("POWER(", "pow(", false),
   ("EXP(", "np.exp(", false),
   ("LN(", "np.log(", false),
   ("LOG(", "np.log10(", false),
   ("PI()", "np.pi", false),
   ("TRUE", "True", false),
   ("FALSE", "False", false)]

/-- `FormulaExtractor._replace_excel_functions`. -/
def replaceExcelFunctions (formula : String) : String :=
  excelReplacements.foldl
    (fun f r =>
      let f1 := strReplace f r.1 r.2.1
      if r.2.2 then strReplace f1 ")" "])" else f1)
    formula

/-! ### The restricted expression interpreter (`_safe_eval`) -/

/-- Tokens of the evaluated expression language. -/
inductive Tok where
  | num (q : Q)
  | str (s : String)
  | name (s : String)
  | sym (s : String)
deriving DecidableEq, Repr

/-- Read an identifier, following Python's attribute access so that
`np.sqrt` becomes one dotted name. -/
def takeNameChars : Nat → List Char → List Char × List Char
  | 0, l => ([], l)
  | fuel + 1, l =>
    let part := l.takeWhile isWordChar
    let rest := l.dropWhile isWordChar
    match rest with
    | '.' :: c2 :: rest2 =>
      if isWordChar c2 && !isDigit09 c2 then
        let r := takeNameChars fuel (c2 :: rest2)
        (part ++ '.' :: r.1, r.2)
      else (part, rest)
    | _ => (part, rest)

/-- Tokenizer for the evaluated fragment.  Characters outside it — including
a lone `=` or `!`, and anything Python's parser would reject in these
positions — produce an error, matching the `SyntaxError` that `eval` raises
(exception text abstracted). -/
def tokenizeGo : Nat → List Char → Except String (List Tok)
  | 0, _ => .error "tokenizer fuel exhausted"
  | _, [] => .ok []
  | fuel + 1, c :: cs =>
    if isSpacePy c then tokenizeGo fuel cs
    else if isDigit09 c then
      let d1 := (c :: cs).takeWhile isDigit09
      let rest1 := (c :: cs).dropWhile isDigit09
      match rest1 with
      | '.' :: rest2 =>
        let d2 := rest2.takeWhile isDigit09
        let rest3 := rest2.dropWhile isDigit09
        do
          let ts ← tokenizeGo fuel rest3
          pure (Tok.num (floatOfDigits d1 d2) :: ts)
      | _ =>
        do
          let ts ← tokenizeGo fuel rest1
          pure (Tok.num (qOfNat (digitsToNat d1)) :: ts)
    else if isWordChar c then
      let r := takeNameChars (cs.length + 1) (c :: cs)
      do
        let ts ← tokenizeGo fuel r.2
        pure (Tok.name (String.mk r.1) :: ts)
    else if c == '"' then
      let content := cs.takeWhile (· ≠ '"')
      let rest := cs.dropWhile (· ≠ '"')
      match rest with
      | '"' :: rest2 =>
        do
          let ts ← tokenizeGo fuel rest2
          pure (Tok.str (String.mk content) :: ts)
      | _ => .error "unterminated string literal"
    else
      match c, cs with
      | '*', '*' :: cs2 => do
        let ts ← tokenizeGo fuel cs2
        pure (Tok.sym "**" :: ts)
      | '<', '=' :: cs2 => do
        let ts ← tokenizeGo fuel cs2
        pure (Tok.sym "<=" :: ts)
      | '>', '=' :: cs2 => do
        let ts ← tokenizeGo fuel cs2
        pure (Tok.sym ">=" :: ts)
      | '=', '=' :: cs2 => do
        let ts ← tokenizeGo fuel cs2
        pure (Tok.sym "==" :: ts)
      | '!', '=' :: cs2 => do
        let ts ← tokenizeGo fuel cs2
        pure (Tok.sym "!=" :: ts)
      | _, _ =>
        if ['+', '-', '*', '/', '%', '^', '(', ')', '[', ']', ',', '<', '>'].contains c then
          do
            let ts ← tokenizeGo fuel cs
            pure (Tok.sym (String.mk [c]) :: ts)
        else .error "invalid character in expression"

/-- Banker's rounding of Python's `round`. -/
def pyRound (q : Q) : Q :=
  let f : Int := qFloor q
  let r := qSub q ⟨f, 1⟩
  if qLt r (mkQ 1 2) then ⟨f, 1⟩
  else if qLt (mkQ 1 2) r then ⟨f + 1, 1⟩
  else if f % 2 = 0 then ⟨f, 1⟩ else ⟨f + 1, 1⟩

/-- Square root, defined on exact squares of integers; an irrational square
root would be a real number outside the exact-rational model and is returned
as an error (no claim reaches one). -/
def ratSqrt (q : Q) : Except String PyVal :=
  if q.num < 0 then .error "math domain error"
  else
    let n := q.num.toNat
    if q.den = 1 ∧ Nat.sqrt n * Nat.sqrt n = n then .ok (.num (qOfNat (Nat.sqrt n)))
    else .error "irrational square root not modelled"

/-- Integer power with Python's `ZeroDivisionError` on `0 ** negative`. -/
def pyPowNum (a b : Q) : Except String PyVal :=
  if b.den = 1 then
    if a.num = 0 ∧ b.num < 0 then .error "0 cannot be raised to a negative power"
    else .ok (.num (qPow a b.num))
  else .error "non-integral exponent not modelled"

/-- Application of the callables reachable from `_safe_eval`'s namespace.
`sum`, `max`, `min` and `np.mean` expect the list argument built by the
aggregate rewrite; the unconditional `')' → '])'` rewrite corrupts every
parenthesised formula before an intact aggregate call can form, so the list
path never executes and is not modelled.  Transcendentals have irrational
results (never reached).  Unknown names raise `NameError`. -/
def applyFunc (f : String) (args : List PyVal) : Except String PyVal :=
  match f, args with
  | "abs", [.num q] => .ok (.num (qAbs q))
  | "pow", [.num a, .num b] => pyPowNum a b
  | "round", [.num q] => .ok (.num (pyRound q))
  | "np.sqrt", [.num q] => ratSqrt q
  | "sum", _ => .error "aggregate over list not modelled (unreachable)"
  | "max", _ => .error "aggregate over list not modelled (unreachable)"
  | "min", _ => .error "aggregate over list not modelled (unreachable)"
  | "np.mean", _ => .error "aggregate over list not modelled (unreachable)"
  | "np.exp", _ => .error "transcendental result not modelled (unreachable)"
  | "np.log", _ => .error "transcendental result not modelled (unreachable)"
  | "np.log10", _ => .error "transcendental result not modelled (unreachable)"
  | _, _ => .error ("name '" ++ f ++ "' is not defined")

/-- A bare (uncalled) name: only `True` and `False` of the namespace produce
first-class values a formula can return; the namespace's callables would
yield function objects (which never flow into a result) and everything else
raises `NameError` — in particular any cell reference that survived to
evaluation, such as `B1` when no substitution ran. -/
def evalName (n : String) : Except String PyVal :=
  if n == "True" then .ok (.bool true)
  else if n == "False" then .ok (.bool false)
  else if n == "np.pi" then .error "irrational constant not modelled"
  else .error ("name '" ++ n ++ "' is not defined")

/-- Python `+`: numeric addition or string concatenation. -/
def pyAdd : PyVal → PyVal → Except String PyVal
  | .num a, .num b => .ok (.num (qAdd a b))
  | .str a, .str b => .ok (.str (a ++ b))
  | _, _ => .error "unsupported operand types for +"

def pySub : PyVal → PyVal → Except String PyVal
  | .num a, .num b => .ok (.num (qSub a b))
  | _, _ => .error "unsupported operand types for -"

def pyMul : PyVal → PyVal → Except String PyVal
  | .num a, .num b => .ok (.num (qMul a b))
  | _, _ => .error "unsupported operand types for *"

def pyDiv : PyVal → PyVal → Except String PyVal
  | .num a, .num b =>
    if b.num = 0 then .error "division by zero" else .ok (.num (qDiv a b))
  | _, _ => .error "unsupported operand types for /"

/-- Python `%` on numbers: `a - b * floor(a / b)`. -/
def pyMod : PyVal → PyVal → Except String PyVal
  | .num a, .num b =>
    if b.num = 0 then .error "modulo by zero"
    else .ok (.num (qSub a (qMul b ⟨qFloor (qDiv a b), 1⟩)))
  | _, _ => .error "unsupported operand types for %"

/-- Python `^` is bitwise xor, defined on ints (the two's-complement case of
negative operands is not modelled; no claim evaluates `^` at all). -/
def pyXor : PyVal → PyVal → Except String PyVal
  | .num a, .num b =>
    if a.den = 1 ∧ b.den = 1 ∧ 0 ≤ a.num ∧ 0 ≤ b.num then
      .ok (.num (qOfNat (a.num.toNat ^^^ b.num.toNat)))
    else .error "xor operand case not modelled"
  | _, _ => .error "unsupported operand types for ^"

/-- Python comparison operators on the values the claims meet.  Equality
between values of different types is `False` (the `bool`/`int` subclassing
corner of Python is not exercised by any formula here); ordering between
different types is a `TypeError`. -/
def pyCompare (op : String) : PyVal → PyVal → Except String PyVal
  | .num a, .num b =>
    if op == "<" then .ok (.bool (qLt a b))
    else if op == ">" then .ok (.bool (qLt b a))
    else if op == "<=" then .ok (.bool (qLe a b))
    else if op == ">=" then .ok (.bool (qLe b a))
    else if op == "==" then .ok (.bool (a == b))
    else .ok (.bool (a != b))
  | .str a, .str b =>
    if op == "<" then .ok (.bool (a < b))
    else if op == ">" then .ok (.bool (b < a))
    else if op == "<=" then .ok (.bool (a < b || a == b))
    else if op == ">=" then .ok (.bool (b < a || a == b))
    else if op == "==" then .ok (.bool (a == b))
    else .ok (.bool (a != b))
  | _, _ =>
    if op == "==" then .ok (.bool false)
    else if op == "!=" then .ok (.bool true)
    else .error "comparison not supported between these types"

mutual

/-- Expression level: a comparison between two arithmetic operands (chained
comparisons are not reached by any formula here). -/
def parseExpr : Nat → List Tok → Except String (PyVal × List Tok)
  | 0, _ => .error "expression nesting exceeds fuel"
  | fuel + 1, ts => do
    let r ← parseXor fuel ts
    match r.2 with
    | .sym s :: ts2 =>
      if s == "<" || s == ">" || s == "<=" || s == ">=" || s == "==" || s == "!=" then do
        let r2 ← parseXor fuel ts2
        let v ← pyCompare s r.1 r2.1
        pure (v, r2.2)
      else pure r
    | _ => pure r

/-- Python's `^` level (binds looser than `+`/`-`). -/
def parseXor : Nat → List Tok → Except String (PyVal × List Tok)
  | 0, _ => .error "expression nesting exceeds fuel"
  | fuel + 1, ts => do
    let r ← parseArith fuel ts
    parseXorRest fuel r.1 r.2

def parseXorRest : Nat → PyVal → List Tok → Except String (PyVal × List Tok)
  | 0, _, _ => .error "expression nesting exceeds fuel"
  | fuel + 1, v, .sym "^" :: ts => do
    let r ← parseArith fuel ts
    let u ← pyXor v r.1
    parseXorRest fuel u r.2
  | _, v, ts => pure (v, ts)

def parseArith : Nat → List Tok → Except String (PyVal × List Tok)
  | 0, _ => .error "expression nesting exceeds fuel"
  | fuel + 1, ts => do
    let r ← parseTerm fuel ts
    parseArithRest fuel r.1 r.2

def parseArithRest : Nat → PyVal → List Tok → Except String (PyVal × List Tok)
  | 0, _, _ => .error "expression nesting exceeds fuel"
  | fuel + 1, v, .sym "+" :: ts => do
    let r ← parseTerm fuel ts
    let u ← pyAdd v r.1
    parseArithRest fuel u r.2
  | fuel + 1, v, .sym "-" :: ts => do
    let r ← parseTerm fuel ts
    let u ← pySub v r.1
    parseArithRest fuel u r.2
  | _, v, ts => pure (v, ts)

def parseTerm : Nat → List Tok → Except String (PyVal × List Tok)
  | 0, _ => .error "expression nesting exceeds fuel"
  | fuel + 1, ts => do
    let r ← parseUnary fuel ts
    parseTermRest fuel r.1 r.2

def parseTermRest : Nat → PyVal → List Tok → Except String (PyVal × List Tok)
  | 0, _, _ => .error "expression nesting exceeds fuel"
  | fuel + 1, v, .sym "*" :: ts => do
    let r ← parseUnary fuel ts
    let u ← pyMul v r.1
    parseTermRest fuel u r.2
  | fuel + 1, v, .sym "/" :: ts => do
    let r ← parseUnary fuel ts
    let u ← pyDiv v r.1
    parseTermRest fuel u r.2
  | fuel + 1, v, .sym "%" :: ts => do
    let r ← parseUnary fuel ts
    let u ← pyMod v r.1
    parseTermRest fuel u r.2
  | _, v, ts => pure (v, ts)

def parseUnary : Nat → List Tok → Except String (PyVal × List Tok)
  | 0, _ => .error "expression nesting exceeds fuel"
  | fuel + 1, .sym "-" :: ts => do
    let r ← parseUnary fuel ts
    match r.1 with
    | .num q => pure (.num (qNeg q), r.2)
    | _ => .error "bad operand type for unary -"
  | fuel + 1, .sym "+" :: ts => do
    let r ← parseUnary fuel ts
    match r.1 with
    | .num q => pure (.num q, r.2)
    | _ => .error "bad operand type for unary +"
  | fuel + 1, ts => parsePow fuel ts

def parsePow : Nat → List Tok → Except String (PyVal × List Tok)
  | 0, _ => .error "expression nesting exceeds fuel"
  | fuel + 1, ts => do
    let r ← parseAtom fuel ts
    match r.2 with
    | .sym "**" :: ts2 => do
      let r2 ← parseUnary fuel ts2
      match r.1, r2.1 with
      | .num a, .num b => do
        let v ← pyPowNum a b
        pure (v, r2.2)
      | _, _ => .error "unsupported operand types for **"
    | _ => pure r

def parseAtom : Nat → List Tok → Except String (PyVal × List Tok)
  | 0, _ => .error "expression nesting exceeds fuel"
  | _ + 1, .num q :: ts => pure (.num q, ts)
  | _ + 1, .str s :: ts => pure (.str s, ts)
  | fuel + 1, .name n :: ts =>
    match ts with
    | .sym "(" :: ts2 => do
      let r ← parseArgs fuel ts2
      let v ← applyFunc n r.1
      pure (v, r.2)
    | _ => do
      let v ← evalName n
      pure (v, ts)
  | fuel + 1, .sym "(" :: ts => do
    let r ← parseExpr fuel ts
    match r.2 with
    | .sym ")" :: ts2 => pure (r.1, ts2)
    | _ => .error "expected closing parenthesis"
  | _ + 1, .sym "[" :: _ =>
    -- a list literal can only reach evaluation through an aggregate rewrite
    -- that the unconditional bracket rewrite has already corrupted
    .error "list literal not modelled (unreachable)"
  | _ + 1, _ :: _ => .error "unexpected token"
  | _ + 1, [] => .error "unexpected end of expression"

def parseArgs : Nat → List Tok → Except String (List PyVal × List Tok)
  | 0, _ => .error "expression nesting exceeds fuel"
  | _ + 1, .sym ")" :: ts => pure ([], ts)
  | fuel + 1, ts => do
    let r ← parseExpr fuel ts
    match r.2 with
    | .sym "," :: ts2 => do
      let r2 ← parseArgs fuel ts2
      pure (r.1 :: r2.1, r2.2)
    | .sym ")" :: ts2 => pure ([r.1], ts2)
    | _ => .error "expected comma or closing parenthesis"

end

/-- `FormulaExtractor._safe_eval`: evaluate the expression; any failure is a
`ValueError` (message text abstracted). -/
def safeEval (expression : String) : Except String PyVal := do
  let ts ← tokenizeGo (expression.data.length + 1) expression.data
  let r ← parseExpr ((ts.length + 1) * 32) ts
  match r.2 with
  | [] => pure r.1
  | _ => .error "unexpected trailing tokens"

/-- `FormulaExtractor.evaluate_formula`: a non-formula string is returned
unchanged; `if context:` makes both `None` and the empty dict skip
substitution; every exception is caught and returned as an
`#ERROR: `-prefixed string. -/
def evaluateFormula (formula : String) (context : List (String × PyVal)) : PyVal :=
  match formula.data with
  | '=' :: bodyChars =>
    let body := String.mk bodyChars
    let body := if context.isEmpty then body else substituteCellReferences body context
    let body := replaceExcelFunctions body
    match safeEval body with
    | .ok v => v
    | .error m => .str ("#ERROR: " ++ m)
  | _ => .str formula

/-! ## `validate_formula_integrity` (formula_extractor.py lines 371-451) -/

/-- The fixed character whitelist of `_validate_formula_syntax`
(formula_extractor.py line 447).  Note that it contains no double-quote
character. -/
def validChars : List Char :=
  "ABCDEFGHIJKLMNOPQRSTUVWXYZabcdefghijklmnopqrstuvwxyz0123456789+-*/^().,!:;<>=&% ".data

/-- `FormulaExtractor._validate_formula_syntax`: starts with `=`, equal
counts of `(` and `)`, and every character on the whitelist. -/
def formulaSyntaxValid (formula : String) : Bool :=
  (match formula.data with
   | '=' :: _ => true
   | _ => false) &&
  formula.data.count '(' == formula.data.count ')' &&
  formula.data.all (fun c => validChars.contains c)

/-- What `validate_formula_integrity` reads from one sheet of a processed
document: the sheet name, the keys of `values`, and the `formulas` dict. -/
structure SheetData where
  name : String
  valueCells : List String
  formulas : List (String × String)
deriving Repr

abbrev Document := List SheetData

/-- One formula occurrence as recorded in the error/warning lists. -/
structure FormulaIssue where
  sheet : String
  cell : String
  formula : String
deriving DecidableEq, Repr

/-- The `all_cells` set: every address holding a value or formula on any
sheet — bare addresses, not sheet-qualified, exactly as the source builds
it (lines 388-391). -/
def allCells (doc : Document) : List String :=
  doc.flatMap (fun sd => sd.valueCells ++ sd.formulas.map Prod.fst)

/-- All formula occurrences of the document in iteration order. -/
def allFormulas (doc : Document) : List FormulaIssue :=
  doc.flatMap (fun sd => sd.formulas.map (fun cf => ⟨sd.name, cf.1, cf.2⟩))

/-- The referenced cells of a formula that appear nowhere in the document. -/
def missingRefsOf (doc : Document) (e : FormulaIssue) : List String :=
  (analyzeFormula e.formula e.cell).referenced_cells.filter
    (fun r => !(allCells doc).contains r)

/-- The result record of `validate_formula_integrity` (the
`inconsistent_units` list is always left empty by the source and omitted). -/
structure ValidationResult where
  syntax_errors : List FormulaIssue
  missing_references : List (FormulaIssue × List String)
  circular_references : List (List String)
  total_formulas : Nat
  valid_formulas : Nat
  error_formulas : Nat
  warning_formulas : Nat
deriving Repr

/-- `FormulaExtractor.validate_formula_integrity`.  The source classifies
each formula in one pass over the sheets, appending to the issue lists and
bumping the counters; a syntax-invalid formula is recorded and `continue`d
past the missing-reference check.  Since each formula's classification
depends only on the formula itself and the fixed `all_cells` set, the pass
is presented as filters and counts over the formula stream in document
order. -/
def validateFormulaIntegrity (doc : Document) : ValidationResult :=
  let fs := allFormulas doc
  { syntax_errors := fs.filter (fun e => !formulaSyntaxValid e.formula)
    missing_references :=
      (fs.filter (fun e =>
        formulaSyntaxValid e.formula && !(missingRefsOf doc e).isEmpty)).map
        (fun e => (e, missingRefsOf doc e))
    circular_references :=
      detectCircularReferences (doc.map (fun sd => (sd.name, sd.formulas)))
    total_formulas := fs.length
    valid_formulas :=
      (fs.filter (fun e =>
        formulaSyntaxValid e.formula && (missingRefsOf doc e).isEmpty)).length
    error_formulas := (fs.filter (fun e => !formulaSyntaxValid e.formula)).length
    warning_formulas :=
      (fs.filter (fun e =>
        formulaSyntaxValid e.formula && !(missingRefsOf doc e).isEmpty)).length }

/-! ## Formula-map export (excel_processor.py lines 412-439) and re-import -/

/-- The formula-map flattening of `ExcelProcessor.export_formulas_to_json`
(lines 425-430): one flat record keyed `sheet!cell` per formula cell, in
sheet/cell iteration order. -/
def exportFormulas (sheets : List SheetFormulas) : List (String × String) :=
  sheets.flatMap (fun sf => sf.2.map (fun cf => (sf.1 ++ "!" ++ cf.1, cf.2)))

/-- Split a flat key at its last `!`.  Cell addresses produced by the
processor are column letters followed by a row number and so never contain
`!`; splitting at the last `!` therefore inverts the flattening even for
sheet names that themselves contain `!`. -/
def splitLastBang (k : String) : String × String :=
  (String.mk ((k.data.reverse.dropWhile (· ≠ '!')).drop 1).reverse,
   String.mk (k.data.reverse.takeWhile (· ≠ '!')).reverse)

/-- Modelled from the spec: re-importing the exported flat formula map —
"exporting the formula map to the flat record format and re-importing it
yields an identical qualified_address → formula_text mapping" (§8), the
flat keys being the fully-qualified addresses of §6.  The repository ships
no reader for its own export, so the import is the spec's words: parse each
flat string key back into its sheet and cell components. -/
def importFormulas (flat : List (String × String)) : List ((String × String) × String) :=
  flat.map (fun kf => (splitLastBang kf.1, kf.2))

/-- The document's own `qualified_address → formula_text` mapping, keyed by
the (sheet, cell) pair. -/
def qualifiedFormulaMap (sheets : List SheetFormulas) : List ((String × String) × String) :=
  sheets.flatMap (fun sf => sf.2.map (fun cf => ((sf.1, cf.1), cf.2)))

/-- The (sheet, cell) pairs of all formula cells. -/
def qualifiedCells (sheets : List SheetFormulas) : List (String × String) :=
  sheets.flatMap (fun sf => sf.2.map (fun cf => (sf.1, cf.1)))

/-! ## Shared lemmas about `_analyze_formula` -/

/-- The classification branch of `_analyze_formula`, stated over the fields
of the metadata it returns. -/
theorem analyzeFormula_type_rule (f addr : String) :
    (analyzeFormula f addr).formula_type =
      (if (analyzeFormula f addr).excel_functions.length > 0 then FormulaType.function
       else if (analyzeFormula f addr).referenced_cells.length > 5 ||
           (analyzeFormula f addr).referenced_ranges.length > 0 then
         FormulaType.complex_reference
       else if (analyzeFormula f addr).operators.length > 3 then
         FormulaType.complex_arithmetic
       else FormulaType.simple) := by
  unfold analyzeFormula
  split
  · rfl
  · rfl

/-- The complexity-score formula of `_analyze_formula`, stated over the
fields of the metadata it returns. -/
theorem analyzeFormula_score_rule (f addr : String) :
    (analyzeFormula f addr).complexity_score =
      (analyzeFormula f addr).referenced_cells.length +
        (analyzeFormula f addr).referenced_ranges.length * 2 +
        (analyzeFormula f addr).excel_functions.length * 3 +
        (analyzeFormula f addr).operators.length := by
  unfold analyzeFormula
  split
  · rfl
  · rfl

/-- A string that does not begin with `=` gets the untouched default
metadata. -/
theorem analyzeFormula_of_not_formula (s addr : String)
    (h : s.data.head? ≠ some '=') :
    analyzeFormula s addr =
      { original_formula := s
        cell_address := addr
        referenced_cells := []
        referenced_ranges := []
        excel_functions := []
        operators := []
        constants := []
        formula_type := .simple
        complexity_score := 0 } := by
  unfold analyzeFormula
  split
  · next body heq => exact absurd (by rw [heq]; rfl) h
  · rfl

/-! ## Claim theorems -/

/-- C6 (confirmed): formula classification applies its rules in order with
first match winning — `Function` if at least one function token is present;
else `ComplexReference` if more than 5 cell references or at least one range
reference; else `ComplexArithmetic` if more than 3 operator tokens (the
operator list is set-deduplicated, as §3 declares `operators` a set); else
`Simple`. -/
theorem C6_classification_first_match_wins (f addr : String) :
    (analyzeFormula f addr).formula_type =
      (if (analyzeFormula f addr).excel_functions.length > 0 then FormulaType.function
       else if (analyzeFormula f addr).referenced_cells.length > 5 ||
           (analyzeFormula f addr).referenced_ranges.length > 0 then
         FormulaType.complex_reference
       else if (analyzeFormula f addr).operators.length > 3 then
         FormulaType.complex_arithmetic
       else FormulaType.simple) :=
  analyzeFormula_type_rule f addr

/-- C7 counterexample: the claim "for formulas with no reference tokens,
`complexity_score` equals the operator count and `formula_type` is `Simple`
unless a function token forces `Function`" fails on the code at two concrete
inputs.  `=SQRT(16)` has no reference tokens and zero operator tokens, yet
its complexity score is 3 (each function token adds 3).  `=1+2*3-4/5^6` has
no reference tokens and no function token, yet its type is
`complex_arithmetic`, not `simple`, because it has five distinct operators. -/
theorem C7_counterexample :
    ((analyzeFormula "=SQRT(16)" "A1").referenced_cells = [] ∧
     (analyzeFormula "=SQRT(16)" "A1").referenced_ranges = [] ∧
     (analyzeFormula "=SQRT(16)" "A1").operators = [] ∧
     (analyzeFormula "=SQRT(16)" "A1").complexity_score = 3) ∧
    ((analyzeFormula "=1+2*3-4/5^6" "A1").referenced_cells = [] ∧
     (analyzeFormula "=1+2*3-4/5^6" "A1").referenced_ranges = [] ∧
     (analyzeFormula "=1+2*3-4/5^6" "A1").excel_functions = [] ∧
     (analyzeFormula "=1+2*3-4/5^6" "A1").formula_type =FormulaType.complex_arithmetic) := by
  decide

/-- C7 (corrected): for formulas with no cell-reference and no
range-reference tokens, the complexity score is 3 × (distinct function
tokens) + (distinct operator tokens) — so it equals the operator count
exactly when no function token is present — and the type is `Function` when
a function token is present, else `ComplexArithmetic` when more than 3
distinct operators, else `Simple`. -/
theorem C7_amended_no_reference_formulas (f addr : String)
    (h1 : (analyzeFormula f addr).referenced_cells = [])
    (h2 : (analyzeFormula f addr).referenced_ranges = []) :
    (analyzeFormula f addr).complexity_score =
      3 * (analyzeFormula f addr).excel_functions.length +
        (analyzeFormula f addr).operators.length ∧
    (analyzeFormula f addr).formula_type =
      (if (analyzeFormula f addr).excel_functions.length > 0 then FormulaType.function
       else if (analyzeFormula f addr).operators.length > 3 then
         FormulaType.complex_arithmetic
       else FormulaType.simple) := by
  constructor
  · rw [analyzeFormula_score_rule, h1, h2]
    simp [Nat.mul_comm]
  · rw [analyzeFormula_type_rule, h1, h2]
    simp

theorem C7_amended_no_reference_formulas_witness :
    (analyzeFormula "=1+2" "A1").referenced_cells = [] ∧
    (analyzeFormula "=1+2" "A1").referenced_ranges = [] ∧
    ((analyzeFormula "=1+2" "A1").complexity_score =
        3 * (analyzeFormula "=1+2" "A1").excel_functions.length +
          (analyzeFormula "=1+2" "A1").operators.length ∧
      (analyzeFormula "=1+2" "A1").formula_type =
        (if (analyzeFormula "=1+2" "A1").excel_functions.length > 0 then FormulaType.function
         else if (analyzeFormula "=1+2" "A1").operators.length > 3 then
           FormulaType.complex_arithmetic
         else FormulaType.simple)) :=
  ⟨by decide, by decide,
   C7_amended_no_reference_formulas "=1+2" "A1" (by decide) (by decide)⟩

/-- C8 (confirmed): formula analysis is total — it is a total function of
the input string — and a malformed formula yields the default metadata:
any string not beginning with `=` (first conjunct, for every input) and a
formula whose body contains no recognizable token (second conjunct, at a
concrete garbage body) produce empty referenced-cell, range, function,
operator and constant lists, type `Simple`, and complexity 0. -/
theorem C8_malformed_formula_default_metadata :
    (∀ s addr : String, s.data.head? ≠ some '=' →
      (analyzeFormula s addr).referenced_cells = [] ∧
      (analyzeFormula s addr).referenced_ranges = [] ∧
      (analyzeFormula s addr).excel_functions = [] ∧
      (analyzeFormula s addr).operators = [] ∧
      (analyzeFormula s addr).constants = [] ∧
      (analyzeFormula s addr).formula_type = FormulaType.simple ∧
      (analyzeFormula s addr).complexity_score = 0) ∧
    ((analyzeFormula "=@#$?@#" "A1").referenced_cells = [] ∧
     (analyzeFormula "=@#$?@#" "A1").referenced_ranges = [] ∧
     (analyzeFormula "=@#$?@#" "A1").excel_functions = [] ∧
     (analyzeFormula "=@#$?@#" "A1").operators = [] ∧
     (analyzeFormula "=@#$?@#" "A1").constants = [] ∧
     (analyzeFormula "=@#$?@#" "A1").formula_type = FormulaType.simple ∧
     (analyzeFormula "=@#$?@#" "A1").complexity_score = 0) := by
  constructor
  · intro s addr h
    rw [analyzeFormula_of_not_formula s addr h]
    exact ⟨rfl, rfl, rfl, rfl, rfl, rfl, rfl⟩
  · decide

theorem C8_malformed_formula_default_metadata_witness :
    ("hello" : String).data.head? ≠ some '=' ∧
    ((analyzeFormula "hello" "A1").referenced_cells = [] ∧
     (analyzeFormula "hello" "A1").referenced_ranges = [] ∧
     (analyzeFormula "hello" "A1").excel_functions = [] ∧
     (analyzeFormula "hello" "A1").operators = [] ∧
     (analyzeFormula "hello" "A1").constants = [] ∧
     (analyzeFormula "hello" "A1").formula_type = FormulaType.simple ∧
     (analyzeFormula "hello" "A1").complexity_score = 0) :=
  ⟨by decide, C8_malformed_formula_default_metadata.1 "hello" "A1" (by decide)⟩

/-- C1 (code_bug): cycle detection is not complete.  In the document
`A1 = B1+C1`, `B1 = B1`, `C1 = A1` on sheet `S`, the nodes `S!A1` and `S!C1`
lie on the cycle `S!A1 → S!C1 → S!A1` (second and third conjuncts show the
two edges), yet the only reported cycle is the self-loop `[S!B1, S!B1]` and
neither `S!A1` nor `S!C1` appears in any reported cycle: after the DFS from
`S!A1` finds the `B1` self-loop it returns `True` up the stack without
exploring `A1`'s remaining neighbour `C1`, and the later root traversal of
`C1` skips the already-visited `A1`. -/
theorem C1_cycle_detection_misses_participants :
    detectCircularReferences [("S", [("A1", "=B1+C1"), ("B1", "=B1"), ("C1", "=A1")])] =
      [["S!B1", "S!B1"]] ∧
    (buildDependencies [("S", [("A1", "=B1+C1"), ("B1", "=B1"), ("C1", "=A1")])]).lookup
        "S!A1" = some ["S!B1", "S!C1"] ∧
    (buildDependencies [("S", [("A1", "=B1+C1"), ("B1", "=B1"), ("C1", "=A1")])]).lookup
        "S!C1" = some ["S!A1"] ∧
    (∀ cyc ∈ detectCircularReferences
        [("S", [("A1", "=B1+C1"), ("B1", "=B1"), ("C1", "=A1")])],
      "S!A1" ∉ cyc ∧ "S!C1" ∉ cyc) := by
  decide

/-- C2 (code_bug): of the spec's three reference results only `=2+3*4 = 14`
holds.  `=SQRT(16)` is rewritten by `_replace_excel_functions` to
`np.sqrt(16]]]])` — the aggregate-bracket rewrite `')' → '])'` runs once per
aggregate table entry even when the aggregate never occurred — so evaluation
returns an `#ERROR:` string instead of 4; `=IF(...)` keeps its untranslated
`IF` head (plus the same bracket damage), so evaluation returns an `#ERROR:`
string instead of `"SAFE"`. -/
theorem C2_evaluator_reference_results_bug :
    evaluateFormula "=2+3*4" [] = PyVal.num 14 ∧
    replaceExcelFunctions "SQRT(16)" = "np.sqrt(16]]]])" ∧
    (∃ m, evaluateFormula "=SQRT(16)" [] = PyVal.str ("#ERROR: " ++ m)) ∧
    (∃ m, evaluateFormula "=IF(1>0,\"SAFE\",\"UNSAFE\")" [] = PyVal.str ("#ERROR: " ++ m)) :=
  ⟨by decide, by decide,
   ⟨"expected comma or closing parenthesis", by decide⟩,
   ⟨"expected comma or closing parenthesis", by decide⟩⟩

/-- C3 counterexample: the evaluator does not record which references were
defaulted.  Evaluating `=A1+1` against a context missing `A1` and against a
context that really holds `A1 = 0` produces the same bare value `1`, so no
caller can distinguish the fallback evaluation from the real-data one. -/
theorem C3_counterexample :
    ([("B7", PyVal.num 5)] : List (String × PyVal)).lookup "A1" = none ∧
    ([("A1", PyVal.num 0), ("B7", PyVal.num 5)] : List (String × PyVal)).lookup "A1" =
      some (PyVal.num 0) ∧
    evaluateFormula "=A1+1" [("B7", PyVal.num 5)] =
      evaluateFormula "=A1+1" [("A1", PyVal.num 0), ("B7", PyVal.num 5)] ∧
    evaluateFormula "=A1+1" [("B7", PyVal.num 5)] = PyVal.num 1 := by
  decide

/-- C4 counterexample: for the document `A1 = B1+1`, `B1 = A1+1` the
detector does report exactly one cycle containing both cells, but evaluating
a cell that lies inside the cycle does not return a typed
`UnresolvedReference` error — the evaluator knows nothing about cycles and
has no typed errors at all: with a (nonempty) context lacking `B1` it
substitutes the zero fallback and happily returns the number 1. -/
theorem C4_counterexample :
    detectCircularReferences [("S", [("A1", "=B1+1"), ("B1", "=A1+1")])] =
      [["S!A1", "S!B1", "S!A1"]] ∧
    evaluateFormula "=B1+1" [("Z9", PyVal.num 3)] = PyVal.num 1 := by
  decide

/-- C4 (corrected): the cycle detector reports exactly one cycle containing
both `A1` and `B1`, but cells inside a cycle are not excluded from
evaluation and there is no typed `UnresolvedReference` result: evaluating
either cell's formula with a nonempty context that lacks the referenced cell
substitutes the zero fallback and returns the plain number 1, and with an
empty context (substitution skipped by `if context:`) it returns an
`#ERROR:` string, the evaluator's only failure channel. -/
theorem C4_amended_cycle_cells_still_evaluated :
    detectCircularReferences [("S", [("A1", "=B1+1"), ("B1", "=A1+1")])] =
      [["S!A1", "S!B1", "S!A1"]] ∧
    evaluateFormula "=B1+1" [("Z9", PyVal.num 3)] = PyVal.num 1 ∧
    evaluateFormula "=A1+1" [("Z9", PyVal.num 3)] = PyVal.num 1 ∧
    (∃ m, evaluateFormula "=B1+1" [] = PyVal.str ("#ERROR: " ++ m)) ∧
    (∃ m, evaluateFormula "=A1+1" [] = PyVal.str ("#ERROR: " ++ m)) :=
  ⟨by decide, by decide, by decide,
   ⟨"name 'B1' is not defined", by decide⟩,
   ⟨"name 'A1' is not defined", by decide⟩⟩

/-- C5 counterexample: a formula on sheet `Calc` referencing `Data!B2`
contributes to the cycle-detection dependency graph the edge
`Calc!A1 → Calc!B2` — the qualified-reference sheet `Data` is ignored and
the bare cell token `B2` is qualified with the *current* sheet; no edge
targets a cell of `Data`. -/
theorem C5_counterexample :
    buildDependencies [("Calc", [("A1", "=Data!B2")])] = [("Calc!A1", ["Calc!B2"])] ∧
    (analyzeFormula "=Data!B2" "A1").referenced_cells = ["B2"] ∧
    ∀ p ∈ buildDependencies [("Calc", [("A1", "=Data!B2")])], "Data!B2" ∉ p.2 := by
  decide

/-- C5 (corrected): in the dependency graph used for cycle detection, every
edge out of a formula cell of sheet `S` targets a cell qualified with `S`
itself — the tokenizer records only the bare cell part of a qualified
reference and `_detect_circular_references` prefixes the current sheet name,
so a reference `T!A1` yields an edge to `S!A1`, never to a cell of `T`.
(Sheet-level cross-sheet dependencies are tracked separately, and only at
sheet granularity, by `_analyze_cross_sheet_dependencies`.) -/
theorem C5_amended_edges_stay_in_sheet (sheets : List SheetFormulas)
    (p : String × List String) (hp : p ∈ buildDependencies sheets)
    (t : String) (ht : t ∈ p.2) :
    ∃ sf ∈ sheets, ∃ cf ∈ sf.2, ∃ r ∈ (analyzeFormula cf.2 cf.1).referenced_cells,
      p.1 = sf.1 ++ "!" ++ cf.1 ∧ t = sf.1 ++ "!" ++ r := by
  simp only [buildDependencies, List.mem_flatMap, List.mem_map] at hp
  obtain ⟨sf, hsf, cf, hcf, heq⟩ := hp
  rw [← heq] at ht
  simp only [List.mem_map] at ht
  obtain ⟨r, hr, hteq⟩ := ht
  exact ⟨sf, hsf, cf, hcf, r, hr, by rw [← heq], hteq.symm⟩

theorem C5_amended_edges_stay_in_sheet_witness :
    (("Calc!A1", ["Calc!B2"]) ∈ buildDependencies [("Calc", [("A1", "=Data!B2")])]) ∧
    ("Calc!B2" ∈ (("Calc!A1", ["Calc!B2"]) : String × List String).2) ∧
    (∃ sf ∈ [(("Calc" : String), [(("A1" : String), ("=Data!B2" : String))])], ∃ cf ∈ sf.2,
      ∃ r ∈ (analyzeFormula cf.2 cf.1).referenced_cells,
        (("Calc!A1", ["Calc!B2"]) : String × List String).1 = sf.1 ++ "!" ++ cf.1 ∧
        "Calc!B2" = sf.1 ++ "!" ++ r) :=
  ⟨by decide, by decide,
   C5_amended_edges_stay_in_sheet [("Calc", [("A1", "=Data!B2")])]
     ("Calc!A1", ["Calc!B2"]) (by decide) "Calc!B2" (by decide)⟩

/-- `re.sub` congruence: two contexts whose `replace_cell` callbacks agree on
every token produce identical substitutions. -/
theorem substCellRefsGo_congr (ctx1 ctx2 : List (String × PyVal))
    (h : ∀ t, lookupRepr ctx1 t = lookupRepr ctx2 t) :
    ∀ (fuel : Nat) (prev : Option Char) (l : List Char),
      substCellRefsGo ctx1 fuel prev l = substCellRefsGo ctx2 fuel prev l := by
  intro fuel
  induction fuel with
  | zero => intro _ l; cases l <;> rfl
  | succ m ih =>
    intro prev l
    cases l with
    | nil => rfl
    | cons c cs =>
      simp only [substCellRefsGo]
      split
      · split
        · rw [ih]
        · rw [h, ih]
      · rw [ih]

/-- Prepending a zero binding for an address absent from the context leaves
the `replace_cell` callback unchanged: the absent address already got the
`"0"` fallback, and a real `0` renders as `"0"` too. -/
theorem lookupRepr_insert_zero (ctx : List (String × PyVal)) (a : String)
    (hmiss : ctx.lookup a = none) (t : String) :
    lookupRepr ((a, PyVal.num 0) :: ctx) t = lookupRepr ctx t := by
  unfold lookupRepr
  by_cases ht : t = a
  · have hba : (t == a) = true := beq_iff_eq.mpr ht
    have hl : List.lookup t ((a, PyVal.num 0) :: ctx) = some (PyVal.num 0) := by
      simp [List.lookup, hba]
    rw [hl, ht, hmiss]
    decide
  · have hba : (t == a) = false := beq_eq_false_iff_ne.mpr ht
    have hl : List.lookup t ((a, PyVal.num 0) :: ctx) = List.lookup t ctx := by
      simp [List.lookup, hba]
    rw [hl]

/-- C3 (corrected): every referenced cell address absent from the context is
substituted with the zero fallback — a missing reference behaves exactly as
if the context really held the value 0 — but the defaulting is silent: the
evaluator records nothing about it, so the result gives the caller no way to
distinguish a fallback evaluation from one over real data.  (The
nonemptiness hypothesis reflects `if context:`, which skips substitution
entirely for an empty context.) -/
theorem C3_amended_zero_fallback_silent (f : String) (ctx : List (String × PyVal))
    (a : String) (hmiss : ctx.lookup a = none) (hne : ctx ≠ []) :
    evaluateFormula f ((a, PyVal.num 0) :: ctx) = evaluateFormula f ctx := by
  have hcongr : ∀ body, substituteCellReferences body ((a, PyVal.num 0) :: ctx) =
      substituteCellReferences body ctx := by
    intro body
    unfold substituteCellReferences
    rw [substCellRefsGo_congr _ _ (lookupRepr_insert_zero ctx a hmiss)]
  have h2 : ctx.isEmpty = false := by
    cases ctx with
    | nil => exact absurd rfl hne
    | cons x xs => rfl
  unfold evaluateFormula
  split
  · simp [h2, hcongr]
  · rfl

theorem C3_amended_zero_fallback_silent_witness :
    (([("B7", PyVal.num 5)] : List (String × PyVal)).lookup "A1" = none) ∧
    (([("B7", PyVal.num 5)] : List (String × PyVal)) ≠ []) ∧
    evaluateFormula "=A1+1" [("A1", PyVal.num 0), ("B7", PyVal.num 5)] =
      evaluateFormula "=A1+1" [("B7", PyVal.num 5)] :=
  ⟨by decide, by decide,
   C3_amended_zero_fallback_silent "=A1+1" [("B7", PyVal.num 5)] "A1"
     (by decide) (by decide)⟩

/-- A single out-of-whitelist character makes `_validate_formula_syntax`
reject the formula. -/
theorem formulaSyntaxValid_false_of_bad_char {f : String} {c : Char}
    (hc : c ∈ f.data) (hbad : validChars.contains c = false) :
    formulaSyntaxValid f = false := by
  unfold formulaSyntaxValid
  have hall : f.data.all (fun x => validChars.contains x) = false := by
    rw [List.all_eq_false]
    exact ⟨c, hc, by simpa using hbad⟩
  rw [hall]
  simp

/-- C10 (confirmed): syntax validation rejects any formula containing a
character outside the fixed whitelist (first conjunct); the whitelist has no
double-quote character, so every formula with a string literal fails
validation, is recorded in `syntax_errors`, is counted in `error_formulas`
(which equals the syntax-error count), and never appears in the
missing-reference list (the `continue` skips that check). -/
theorem C10_quote_formula_syntax_error (doc : Document) (e : FormulaIssue)
    (he : e ∈ allFormulas doc) (hq : '"' ∈ e.formula.data) :
    (∀ f : String, ∀ c ∈ f.data, validChars.contains c = false →
      formulaSyntaxValid f = false) ∧
    formulaSyntaxValid e.formula = false ∧
    e ∈ (validateFormulaIntegrity doc).syntax_errors ∧
    (validateFormulaIntegrity doc).error_formulas =
      (validateFormulaIntegrity doc).syntax_errors.length ∧
    ∀ m ∈ (validateFormulaIntegrity doc).missing_references, m.1 ≠ e := by
  have hgen : ∀ f : String, ∀ c ∈ f.data, validChars.contains c = false →
      formulaSyntaxValid f = false := fun f c hc hbad =>
    formulaSyntaxValid_false_of_bad_char hc hbad
  have h1 : formulaSyntaxValid e.formula = false :=
    hgen e.formula '"' hq (by decide)
  refine ⟨hgen, h1, ?_, rfl, ?_⟩
  · exact List.mem_filter.mpr ⟨he, by simp [h1]⟩
  · intro m hm
    simp only [validateFormulaIntegrity, List.mem_map] at hm
    obtain ⟨e2, he2, hme⟩ := hm
    have hpred := (List.mem_filter.mp he2).2
    intro heq
    rw [← hme] at heq
    have he2e : e2 = e := heq
    rw [he2e, h1] at hpred
    simp at hpred

theorem C10_quote_formula_syntax_error_witness :
    ((⟨"S", "B1", "=IF(1>0,\"SAFE\",\"UNSAFE\")"⟩ : FormulaIssue) ∈
      allFormulas [⟨"S", ["D4"],
        [("A1", "=B1+1"), ("B1", "=IF(1>0,\"SAFE\",\"UNSAFE\")"), ("C1", "=D4+Z9")]⟩]) ∧
    ('"' ∈ ("=IF(1>0,\"SAFE\",\"UNSAFE\")" : String).data) ∧
    formulaSyntaxValid "=IF(1>0,\"SAFE\",\"UNSAFE\")" = false ∧
    ((⟨"S", "B1", "=IF(1>0,\"SAFE\",\"UNSAFE\")"⟩ : FormulaIssue) ∈
      (validateFormulaIntegrity [⟨"S", ["D4"],
        [("A1", "=B1+1"), ("B1", "=IF(1>0,\"SAFE\",\"UNSAFE\")"), ("C1", "=D4+Z9")]⟩]).syntax_errors) ∧
    (∀ m ∈ (validateFormulaIntegrity [⟨"S", ["D4"],
        [("A1", "=B1+1"), ("B1", "=IF(1>0,\"SAFE\",\"UNSAFE\")"), ("C1", "=D4+Z9")]⟩]).missing_references,
      m.1 ≠ (⟨"S", "B1", "=IF(1>0,\"SAFE\",\"UNSAFE\")"⟩ : FormulaIssue)) := by
  have h := C10_quote_formula_syntax_error
    [⟨"S", ["D4"], [("A1", "=B1+1"), ("B1", "=IF(1>0,\"SAFE\",\"UNSAFE\")"), ("C1", "=D4+Z9")]⟩]
    ⟨"S", "B1", "=IF(1>0,\"SAFE\",\"UNSAFE\")"⟩ (by decide) (by decide)
  exact ⟨by decide, by decide, h.2.1, h.2.2.1, h.2.2.2.2⟩

/-! ## Lemmas for the export round trip (C9) -/

theorem mk_data (s : String) : String.mk s.data = s := rfl

theorem takeWhile_append_every {p : Char → Bool} :
    ∀ {a : List Char} (b : List Char), (∀ x ∈ a, p x = true) →
      (a ++ b).takeWhile p = a ++ b.takeWhile p := by
  intro a
  induction a with
  | nil => intro b _; rfl
  | cons x xs ih =>
    intro b h
    have hx : p x = true := h x (List.mem_cons_self x xs)
    simp only [List.cons_append, List.takeWhile_cons, hx, if_true]
    rw [ih b (fun y hy => h y (List.mem_cons_of_mem x hy))]

theorem dropWhile_append_every {p : Char → Bool} :
    ∀ {a : List Char} (b : List Char), (∀ x ∈ a, p x = true) →
      (a ++ b).dropWhile p = b.dropWhile p := by
  intro a
  induction a with
  | nil => intro b _; rfl
  | cons x xs ih =>
    intro b h
    have hx : p x = true := h x (List.mem_cons_self x xs)
    simp only [List.cons_append, List.dropWhile_cons, hx, if_true]
    exact ih b (fun y hy => h y (List.mem_cons_of_mem x hy))

/-- Splitting a flat `sheet!cell` key at the last `!` recovers the pair, for
a cell address free of `!` (the processor's addresses are column letters
followed by a row number). -/
theorem splitLastBang_append (s c : String) (hc : '!' ∉ c.data) :
    splitLastBang (s ++ "!" ++ c) = (s, c) := by
  have hdata : (s ++ "!" ++ c).data = s.data ++ '!' :: c.data := by
    simp [String.data_append]
  have hrev : (s ++ "!" ++ c).data.reverse = c.data.reverse ++ '!' :: s.data.reverse := by
    rw [hdata]
    simp
  have hall : ∀ x ∈ c.data.reverse, (x ≠ '!' : Bool) = true := by
    intro x hx
    simp only [List.mem_reverse] at hx
    simp only [decide_eq_true_eq]
    intro hxe
    exact hc (hxe ▸ hx)
  have htake : (s ++ "!" ++ c).data.reverse.takeWhile (· ≠ '!') = c.data.reverse := by
    rw [hrev, takeWhile_append_every _ hall]
    simp [List.takeWhile_cons]
  have hdrop : (s ++ "!" ++ c).data.reverse.dropWhile (· ≠ '!') = '!' :: s.data.reverse := by
    rw [hrev, dropWhile_append_every _ hall]
    simp [List.dropWhile_cons]
  unfold splitLastBang
  rw [htake, hdrop]
  simp [mk_data]

/-- The import distributes over list append. -/
theorem importFormulas_append (a b : List (String × String)) :
    importFormulas (a ++ b) = importFormulas a ++ importFormulas b := by
  unfold importFormulas
  exact List.map_append _ a b

/-- Re-importing one sheet's flattened entries recovers its qualified
entries. -/
theorem import_sheet (name : String) (cells : List (String × String))
    (h : ∀ cf ∈ cells, '!' ∉ cf.1.data) :
    importFormulas (cells.map (fun cf => (name ++ "!" ++ cf.1, cf.2))) =
      cells.map (fun cf => ((name, cf.1), cf.2)) := by
  unfold importFormulas
  rw [List.map_map]
  apply List.map_congr_left
  intro cf hcf
  simp only [Function.comp_apply]
  rw [splitLastBang_append name cf.1 (h cf hcf)]

/-- C9 supporting lemma: the re-import of the flat export, entry by entry. -/
theorem export_import_round_trip (sheets : List SheetFormulas)
    (hbang : ∀ sf ∈ sheets, ∀ cf ∈ sf.2, '!' ∉ cf.1.data) :
    importFormulas (exportFormulas sheets) = qualifiedFormulaMap sheets := by
  induction sheets with
  | nil => rfl
  | cons sf rest ih =>
    have htail := ih (fun sf2 h2 => hbang sf2 (List.mem_cons_of_mem sf h2))
    have hflat : exportFormulas (sf :: rest) =
        sf.2.map (fun cf => (sf.1 ++ "!" ++ cf.1, cf.2)) ++ exportFormulas rest := by
      simp only [exportFormulas, List.flatMap_cons]
    have hq : qualifiedFormulaMap (sf :: rest) =
        sf.2.map (fun cf => ((sf.1, cf.1), cf.2)) ++ qualifiedFormulaMap rest := by
      simp only [qualifiedFormulaMap, List.flatMap_cons]
    rw [hflat, hq, importFormulas_append,
      import_sheet sf.1 sf.2 (hbang sf (List.mem_cons_self sf rest)), htail]

/-- The flat export is the qualified map with keys rendered `sheet!cell`. -/
theorem exportKeys_eq (sheets : List SheetFormulas) :
    (exportFormulas sheets).map Prod.fst =
      (qualifiedCells sheets).map (fun p => p.1 ++ "!" ++ p.2) := by
  induction sheets with
  | nil => rfl
  | cons sf rest ih =>
    have h1 : exportFormulas (sf :: rest) =
        sf.2.map (fun cf => (sf.1 ++ "!" ++ cf.1, cf.2)) ++ exportFormulas rest := by
      simp only [exportFormulas, List.flatMap_cons]
    have h2 : qualifiedCells (sf :: rest) =
        sf.2.map (fun cf => (sf.1, cf.1)) ++ qualifiedCells rest := by
      simp only [qualifiedCells, List.flatMap_cons]
    rw [h1, h2, List.map_append, List.map_append, ih, List.map_map, List.map_map]
    simp [Function.comp]

/-- Every qualified cell pair comes from a sheet of the document. -/
theorem qualifiedCells_mem {sheets : List SheetFormulas} {p : String × String}
    (hp : p ∈ qualifiedCells sheets) :
    ∃ sf ∈ sheets, sf.1 = p.1 ∧ p.2 ∈ sf.2.map Prod.fst := by
  simp only [qualifiedCells, List.mem_flatMap, List.mem_map] at hp
  obtain ⟨sf, hsf, cf, hcf, heq⟩ := hp
  refine ⟨sf, hsf, ?_, ?_⟩
  · rw [← heq]
  · rw [← heq]
    exact List.mem_map.mpr ⟨cf, hcf, rfl⟩

/-- Distinct sheet names and per-sheet distinct cell addresses make the
qualified cell pairs pairwise distinct. -/
theorem qualifiedCells_nodup (sheets : List SheetFormulas)
    (hs : (sheets.map Prod.fst).Nodup)
    (hc : ∀ sf ∈ sheets, (sf.2.map Prod.fst).Nodup) :
    (qualifiedCells sheets).Nodup := by
  induction sheets with
  | nil => exact List.nodup_nil
  | cons sf rest ih =>
    simp only [List.map_cons, List.nodup_cons] at hs
    simp only [qualifiedCells, List.flatMap_cons]
    rw [List.nodup_append]
    refine ⟨?_, ?_, ?_⟩
    · have h1 : (sf.2.map Prod.fst).Nodup := hc sf (List.mem_cons_self sf rest)
      have h2 : sf.2.map (fun cf => (sf.1, cf.1)) =
          (sf.2.map Prod.fst).map (fun c => (sf.1, c)) := by
        rw [List.map_map]
        apply List.map_congr_left
        intro cf _
        rfl
      rw [h2]
      exact h1.map (fun x y hxy => congrArg Prod.snd hxy)
    · exact ih hs.2 (fun sf2 h2 => hc sf2 (List.mem_cons_of_mem sf h2))
    · intro p hp1 hp2
      simp only [List.mem_map] at hp1
      obtain ⟨cf, hcf, heq⟩ := hp1
      obtain ⟨sf2, hsf2, hname, _⟩ := qualifiedCells_mem hp2
      apply hs.1
      rw [List.mem_map]
      exact ⟨sf2, hsf2, by rw [hname, ← heq]⟩

/-- C9 supporting lemma: the flat keys are pairwise distinct. -/
theorem export_keys_nodup (sheets : List SheetFormulas)
    (hs : (sheets.map Prod.fst).Nodup)
    (hc : ∀ sf ∈ sheets, (sf.2.map Prod.fst).Nodup)
    (hbang : ∀ sf ∈ sheets, ∀ cf ∈ sf.2, '!' ∉ cf.1.data) :
    ((exportFormulas sheets).map Prod.fst).Nodup := by
  rw [exportKeys_eq]
  have hbangMem : ∀ p ∈ qualifiedCells sheets, '!' ∉ p.2.data := by
    intro p hp
    obtain ⟨sf, hsf, _, hcell⟩ := qualifiedCells_mem hp
    obtain ⟨cf, hcf, hce⟩ := List.mem_map.mp hcell
    exact hce ▸ hbang sf hsf cf hcf
  apply List.Nodup.map_on ?_ (qualifiedCells_nodup sheets hs hc)
  intro p hp q hq hpq
  have hsplit := congrArg splitLastBang hpq
  rw [splitLastBang_append p.1 p.2 (hbangMem p hp),
    splitLastBang_append q.1 q.2 (hbangMem q hq)] at hsplit
  exact Prod.ext (congrArg Prod.fst hsplit) (congrArg Prod.snd hsplit)

/-- C9 (confirmed): exporting the formula map to the flat record format
(keys `sheet!cell`) and re-importing it (the import side is modelled from
the spec; the repository ships no reader for its own export) yields the
original `qualified_address → formula_text` mapping entry for entry, and the
flattening assigns pairwise distinct keys — so no entry is lost.  The
hypotheses state what holds of every processed document: sheet names are the
keys of a dict (distinct), cell addresses are distinct within a sheet, and a
cell address (column letters + row number) never contains `!`. -/
theorem C9_export_round_trip (sheets : List SheetFormulas)
    (hs : (sheets.map Prod.fst).Nodup)
    (hc : ∀ sf ∈ sheets, (sf.2.map Prod.fst).Nodup)
    (hbang : ∀ sf ∈ sheets, ∀ cf ∈ sf.2, '!' ∉ cf.1.data) :
    importFormulas (exportFormulas sheets) = qualifiedFormulaMap sheets ∧
    ((exportFormulas sheets).map Prod.fst).Nodup :=
  ⟨export_import_round_trip sheets hbang, export_keys_nodup sheets hs hc hbang⟩

theorem C9_export_round_trip_witness :
    (([("Sheet1", [("A1", "=B1"), ("B1", "=2")]), ("Sheet2", [("A1", "=Sheet1!A1+1")])] :
        List SheetFormulas).map Prod.fst).Nodup ∧
    importFormulas (exportFormulas
        [("Sheet1", [("A1", "=B1"), ("B1", "=2")]), ("Sheet2", [("A1", "=Sheet1!A1+1")])]) =
      qualifiedFormulaMap
        [("Sheet1", [("A1", "=B1"), ("B1", "=2")]), ("Sheet2", [("A1", "=Sheet1!A1+1")])] ∧
    ((exportFormulas
        [("Sheet1", [("A1", "=B1"), ("B1", "=2")]), ("Sheet2", [("A1", "=Sheet1!A1+1")])]).map
      Prod.fst).Nodup := by
  have h := C9_export_round_trip
    [("Sheet1", [("A1", "=B1"), ("B1", "=2")]), ("Sheet2", [("A1", "=Sheet1!A1+1")])]
    (by decide) (by decide) (by decide)
  exact ⟨by decide, h.1, h.2⟩

end BridgeSlab
